import Mathlib

/-!
Shallow embedding of `ufw_tui.py`, an interactive terminal front-end for the
`ufw` firewall tool.

Modelling conventions:
* A `Port` mirrors the Python `Port` class; its mutating methods (`allow`,
  `deny`, `toggle`) are modelled as pure functions returning the updated
  `Port` together with the external command they issue (the command is the
  `subprocess.run` argument list, a `List String`).
* The status output of the external tool is modelled as the list of its
  lines (the result of `splitlines`); the two regular expressions used by
  `get_ports` are embedded as deterministic matchers over `List Char`
  (Python's backtracking cannot produce any other match for these patterns,
  as the character classes involved are mutually exclusive).
* `\w` and `\s` are modelled over the ASCII range; `\d` is `Char.isDigit`.
* The interactive loop of `main` is modelled as a step function
  `sessionStep` on a `SessionState`; the modal input window is folded into
  the add-key event, which carries the raw entered text.  Python list
  indexing (including negative indices) is modelled by `pyIdx`; an
  out-of-range index produces the `crash` outcome (an uncaught
  `IndexError`).
-/

deriving instance DecidableEq for Except

namespace UfwTui

/-- The protocol of a rule: the Python `Literal['any', 'udp', 'tcp']`. -/
inductive Protocol
  | any
  | tcp
  | udp
deriving DecidableEq, Repr

/-- The Python `Port` class: a port token, an allow/deny flag and a protocol. -/
structure Port where
  port_num : String
  allowed : Bool
  protocol : Protocol
deriving DecidableEq, Repr

/-- `Port.str_port`: the rendered identifier, `port_num` alone for `any`,
else `port_num/protocol`. -/
def Port.str_port (p : Port) : String :=
  match p.protocol with
  | .any => p.port_num
  | .tcp => p.port_num ++ "/tcp"
  | .udp => p.port_num ++ "/udp"

/-- The command issued by `Port.allow`. -/
def allowCmd (s : String) : List String := ["sudo", "ufw", "allow", s]

/-- The command issued by `Port.deny`. -/
def denyCmd (s : String) : List String := ["sudo", "ufw", "deny", s]

/-- The command issued by `Port.delete`. -/
def deleteCmd (allowed : Bool) (s : String) : List String :=
  ["sudo", "ufw", "delete", if allowed then "allow" else "deny", s]

/-- `Port.allow`: issue the allow command, set `allowed := true`. -/
def Port.allow (p : Port) : Port × List String :=
  ({ p with allowed := true }, allowCmd p.str_port)

/-- `Port.deny`: issue the deny command, set `allowed := false`. -/
def Port.deny (p : Port) : Port × List String :=
  ({ p with allowed := false }, denyCmd p.str_port)

/-- `Port.delete`: issue the delete command selected by the current
`allowed` flag; the `Port` itself is unchanged. -/
def Port.delete (p : Port) : List String :=
  deleteCmd p.allowed p.str_port

/-- `Port.toggle`: `deny()` if currently allowed, else `allow()`. -/
def Port.toggle (p : Port) : Port × List String :=
  if p.allowed then p.deny else p.allow

/-- Python's `\w` over ASCII: letters, digits and underscore. -/
def isWordChar (c : Char) : Bool :=
  c.isAlphanum || c = '_'

/-- Python's `\s` over ASCII: space, tab, newline, carriage return,
vertical tab and form feed. -/
def isSpaceChar (c : Char) : Bool :=
  c = ' ' || c = '\t' || c = '\n' || c = '\r' || c = '\x0b' || c = '\x0c'

/-- The numbered-entry filter `re.match(r'^\[\s*(\d+)\]', line)`:
on success returns the characters following the closing bracket. -/
def numTag : List Char → Option (List Char)
  | '[' :: rest =>
    let r1 := rest.dropWhile isSpaceChar
    let digits := r1.takeWhile Char.isDigit
    let r2 := r1.dropWhile Char.isDigit
    if digits.isEmpty then none
    else
      match r2 with
      | ']' :: r3 => some r3
      | _ => none
  | _ => none

/-- Whether a status line passes the numbered-entry filter. -/
def matchesNumTag (line : String) : Bool :=
  (numTag line.data).isSome

/-- The strict entry pattern
`re.match(r'^\[\s*\d+\]\s+(\w+)(?:/(tcp|udp))?\s+(ALLOW|DENY)', line)`:
extracts the port token, the optional protocol suffix and the action. -/
def parseEntry (line : String) : Option Port :=
  match numTag line.data with
  | none => none
  | some r0 =>
    if (r0.takeWhile isSpaceChar).isEmpty then none
    else
      let r1 := r0.dropWhile isSpaceChar
      let tok := r1.takeWhile isWordChar
      let r2 := r1.dropWhile isWordChar
      if tok.isEmpty then none
      else
        let protoRest : Option (Protocol × List Char) :=
          match r2 with
          | '/' :: r =>
            if r.take 3 = ['t', 'c', 'p'] then some (.tcp, r.drop 3)
            else if r.take 3 = ['u', 'd', 'p'] then some (.udp, r.drop 3)
            else none
          | r => some (.any, r)
        match protoRest with
        | none => none
        | some (proto, r3) =>
          if (r3.takeWhile isSpaceChar).isEmpty then none
          else
            let r4 := r3.dropWhile isSpaceChar
            if r4.take 5 = ['A', 'L', 'L', 'O', 'W'] then
              some ⟨String.mk tok, true, proto⟩
            else if r4.take 4 = ['D', 'E', 'N', 'Y'] then
              some ⟨String.mk tok, false, proto⟩
            else none

/-- The parsing loop of `get_ports`: the first line failing the strict
pattern raises `ValueError(f'Invalid line: {line}')`. -/
def parseLines : List String → Except String (List Port)
  | [] => .ok []
  | l :: ls =>
    match parseEntry l with
    | none => .error ("Invalid line: " ++ l)
    | some p =>
      match parseLines ls with
      | .error e => .error e
      | .ok ps => .ok (p :: ps)

/-- The sort key of `get_ports`: `port_lst.sort(key=lambda port: port.port_num)`,
ascending lexicographic comparison of the raw port token. -/
def portLE (a b : Port) : Prop :=
  a.port_num ≤ b.port_num

instance : DecidableRel portLE :=
  fun a b => inferInstanceAs (Decidable (a.port_num ≤ b.port_num))

/-- `get_ports`: filter the status lines to numbered entries, check the
count is even, keep the first half, parse each line, sort ascending by port
token.  Python's `list.sort` is a stable ascending sort; it is modelled by
the stable `insertionSort`, which produces the same list. -/
def get_ports (lines : List String) : Except String (List Port) :=
  if (lines.filter matchesNumTag).length % 2 ≠ 0 then
    .error "The amount of ports are not diviced by 2"
  else
    match parseLines ((lines.filter matchesNumTag).take
        ((lines.filter matchesNumTag).length / 2)) with
    | .error e => .error e
    | .ok ps => .ok (List.insertionSort portLE ps)

/-- Python list indexing with negative indices: `l[i]` is valid iff
`-len <= i < len`; a negative `i` addresses `len + i`.  Returns the
effective non-negative index. -/
def pyIdx (len : Nat) (i : Int) : Option Nat :=
  let j : Int := if i < 0 then i + len else i
  if 0 ≤ j ∧ j < (len : Int) then some j.toNat else none

/-- Python `str.strip()` over ASCII whitespace. -/
def pyStrip (s : List Char) : List Char :=
  ((s.dropWhile isSpaceChar).reverse.dropWhile isSpaceChar).reverse

/-- Python `str.split(' ')` with the explicit single-space separator:
splits at every space, keeping empty fields. -/
def splitAtSpaces : List Char → List (List Char)
  | [] => [[]]
  | ' ' :: r => [] :: splitAtSpaces r
  | c :: r =>
    match splitAtSpaces r with
    | [] => [[c]]
    | g :: gs => (c :: g) :: gs

/-- The add-token pattern `re.match(r'(!)?(\w+)(?:/(tcp|udp))?', port_input)`:
a prefix match returning (allowed, port token, protocol); `allowed` is
`group(1) != '!'`.  Text after the matched prefix is ignored. -/
def parseToken (t : String) : Option (Bool × String × Protocol) :=
  let (bang, r0) :=
    match t.data with
    | '!' :: r => (true, r)
    | r => (false, r)
  let tok := r0.takeWhile isWordChar
  let r1 := r0.dropWhile isWordChar
  if tok.isEmpty then none
  else
    let proto : Protocol :=
      match r1 with
      | '/' :: r =>
        if r.take 3 = ['t', 'c', 'p'] then .tcp
        else if r.take 3 = ['u', 'd', 'p'] then .udp
        else .any
      | _ => .any
    some (!bang, String.mk tok, proto)

/-- The per-token loop of the add handler: for each token, on pattern
failure show `Invalid port: <token>`; on a port number already present in
the collection show `Port <num> already exists`; otherwise construct the
`Port`, issue its allow/deny command and append it.  Returns the new
collection, the issued commands in order, and the popup messages in
order. -/
def addTokens (col : List Port) : List String → List Port × List (List String) × List String
  | [] => (col, [], [])
  | t :: ts =>
    match parseToken t with
    | none =>
      let r := addTokens col ts
      (r.1, r.2.1, ("Invalid port: " ++ t) :: r.2.2)
    | some (allowed, pid, proto) =>
      if pid ∈ col.map Port.port_num then
        let r := addTokens col ts
        (r.1, r.2.1, ("Port " ++ pid ++ " already exists") :: r.2.2)
      else
        let port : Port := ⟨pid, allowed, proto⟩
        let pc := if port.allowed then port.allow else port.deny
        let r := addTokens (col ++ [pc.1]) ts
        (r.1, pc.2 :: r.2.1, r.2.2)

/-- The mutable state of the interactive loop: the rule collection and the
selection cursor (a Python `int`). -/
structure SessionState where
  port_lst : List Port
  current_index : Int
deriving DecidableEq, Repr

/-- A key event of the interactive loop.  The add key carries the raw text
entered in the modal input window (before stripping); any key without a
handler is `other`. -/
inductive Key
  | q
  | up
  | down
  | space
  | addKey (raw : String)
  | d
  | h
  | other
deriving DecidableEq, Repr

/-- The outcome of one loop iteration: leave the loop, continue with a new
state, or terminate with an uncaught exception. -/
inductive Outcome
  | quit
  | next (s : SessionState)
  | crash (msg : String)
deriving DecidableEq, Repr

/-- The help popup text. -/
def helpText : String :=
  "↑ / ↓  : Navigate\nSPACE  : Toggle selected port\na      : Add new (allowed) ports\nd      : Delete selected port\nq      : Quit"

/-- One iteration of the `while True` loop of `main`, from reading a key to
the bottom of the loop body: the outcome, the external commands issued and
the popup messages shown. -/
def sessionStep (s : SessionState) : Key → Outcome × List (List String) × List String
  | .q => (.quit, [], [])
  | .up =>
    if s.current_index > 0 then
      (.next { s with current_index := s.current_index - 1 }, [], [])
    else (.next s, [], [])
  | .down =>
    if s.current_index < (s.port_lst.length : Int) - 1 then
      (.next { s with current_index := s.current_index + 1 }, [], [])
    else (.next s, [], [])
  | .space =>
    if s.port_lst.isEmpty then
      (.next s, [], ["No ports to toggle"])
    else
      match pyIdx s.port_lst.length s.current_index with
      | none => (.crash "IndexError", [], [])
      | some i =>
        match s.port_lst[i]? with
        | none => (.crash "IndexError", [], [])
        | some p =>
          let pc := p.toggle
          (.next { s with port_lst := s.port_lst.set i pc.1 }, [pc.2], [])
  | .addKey raw =>
    let user := pyStrip raw.data
    if user.isEmpty then (.next s, [], [])
    else
      let toks := (splitAtSpaces user).map String.mk
      let r := addTokens s.port_lst toks
      (.next { s with port_lst := r.1 }, r.2.1, r.2.2)
  | .d =>
    match pyIdx s.port_lst.length s.current_index with
    | none => (.crash "IndexError", [], [])
    | some i =>
      match s.port_lst[i]? with
      | none => (.crash "IndexError", [], [])
      | some p =>
        let col := s.port_lst.eraseIdx i
        let idx :=
          if s.current_index ≥ (col.length : Int) then (col.length : Int) - 1
          else s.current_index
        (.next ⟨col, idx⟩, [p.delete], [])
  | .h => (.next s, [], [helpText])
  | .other => (.next s, [], [])

/-- The session states reachable by the interactive loop: an initial state
is a successfully parsed collection with the cursor at 0; further states
come from loop iterations that continue. -/
inductive Reachable : SessionState → Prop
  | init (lines : List String) (ports : List Port)
      (h : get_ports lines = .ok ports) : Reachable ⟨ports, 0⟩
  | step (s s' : SessionState) (k : Key) (hr : Reachable s)
      (h : (sessionStep s k).1 = .next s') : Reachable s'

/-- The scroll-window computation of the render loop (lines 204–211 of the
source), on Python ints. -/
def computeViewport (current_index total_count visible_height : Int) : Int × Int :=
  let start_index : Int :=
    if current_index ≥ visible_height then
      max 0 (current_index - visible_height + 1)
    else 0
  let end_index : Int := min total_count (start_index + visible_height)
  (start_index, end_index)

/-- Modelled from the spec: the add-ports token grammar
`[!]<port_id>[/<tcp|udp>]` read as a whole-token match — an optional `!`,
a non-empty run of word characters, and an optional protocol suffix, with
no trailing text. -/
def specTokenGrammar (t : String) : Bool :=
  let r0 :=
    match t.data with
    | '!' :: r => r
    | r => r
  let tok := r0.takeWhile isWordChar
  let r1 := r0.dropWhile isWordChar
  !tok.isEmpty &&
    (r1.isEmpty || r1 = ['/', 't', 'c', 'p'] || r1 = ['/', 'u', 'd', 'p'])

/-! ### Helper lemmas -/

instance : IsTotal Port portLE :=
  ⟨fun a b => le_total a.port_num b.port_num⟩

instance : IsTrans Port portLE :=
  ⟨fun _ _ _ hab hbc => le_trans hab hbc⟩

/-- When every line parses, `parseLines` succeeds with the parsed entries. -/
theorem parseLines_ok (ls : List String) (h : ∀ l ∈ ls, (parseEntry l).isSome) :
    parseLines ls = .ok (ls.filterMap parseEntry) := by
  induction ls with
  | nil => rfl
  | cons l ls ih =>
    obtain ⟨p, hp⟩ := Option.isSome_iff_exists.mp (h l (by simp))
    simp only [parseLines, hp, List.filterMap_cons, ih fun x hx => h x (by simp [hx])]

/-- When every element maps to `some`, `filterMap` preserves length. -/
theorem filterMap_length_all_isSome {α β : Type} (f : α → Option β) (ls : List α)
    (h : ∀ l ∈ ls, (f l).isSome) :
    (ls.filterMap f).length = ls.length := by
  induction ls with
  | nil => rfl
  | cons l ls ih =>
    obtain ⟨p, hp⟩ := Option.isSome_iff_exists.mp (h l (by simp))
    simp only [List.filterMap_cons, hp, List.length_cons,
      ih fun x hx => h x (by simp [hx])]

/-! ### Claims -/

/-- C2: for all `0 ≤ selected_index < total_count` and `visible_height ≥ 1`,
the viewport computation satisfies `start ≤ selected_index < end`,
`end - start ≤ visible_height`, `start ≥ 0` and `end ≤ total_count`. -/
theorem computeViewport_bounds (current_index total_count visible_height : Int)
    (h0 : 0 ≤ current_index) (h1 : current_index < total_count)
    (h2 : 1 ≤ visible_height) :
    (computeViewport current_index total_count visible_height).1 ≤ current_index ∧
    current_index < (computeViewport current_index total_count visible_height).2 ∧
    (computeViewport current_index total_count visible_height).2 -
      (computeViewport current_index total_count visible_height).1 ≤ visible_height ∧
    0 ≤ (computeViewport current_index total_count visible_height).1 ∧
    (computeViewport current_index total_count visible_height).2 ≤ total_count := by
  simp only [computeViewport]
  split_ifs <;> omega

/-- Witness for C2 at `(0, 1, 1)`. -/
theorem computeViewport_bounds_witness :
    (computeViewport 0 1 1).1 ≤ 0 ∧ 0 < (computeViewport 0 1 1).2 ∧
    (computeViewport 0 1 1).2 - (computeViewport 0 1 1).1 ≤ 1 ∧
    0 ≤ (computeViewport 0 1 1).1 ∧ (computeViewport 0 1 1).2 ≤ 1 :=
  computeViewport_bounds 0 1 1 (by decide) (by decide) (by decide)

/-- C7: toggling a `Port` twice restores its original `allowed` value and
issues exactly one external mutation command per toggle, each for the
rule's rendered identifier. -/
theorem toggle_twice_restores (p : Port) :
    (p.toggle.1.toggle.1).allowed = p.allowed ∧
    p.toggle.2 = (if p.allowed then denyCmd p.str_port else allowCmd p.str_port) ∧
    p.toggle.1.toggle.2 =
      (if p.allowed then allowCmd p.str_port else denyCmd p.str_port) := by
  obtain ⟨num, al, proto⟩ := p
  cases al <;> simp [Port.toggle, Port.allow, Port.deny, Port.str_port]

/-- C4: from an empty collection, the add-ports input `443/tcp !25` issues
exactly an allow command for `443/tcp` followed by a deny command for `25`,
and leaves the collection `[{443, TCP, true}, {25, ANY, false}]` in that
order. -/
theorem add_scenario_B :
    sessionStep ⟨[], 0⟩ (Key.addKey "443/tcp !25") =
      (.next ⟨[⟨"443", true, .tcp⟩, ⟨"25", false, .any⟩], 0⟩,
       [["sudo", "ufw", "allow", "443/tcp"], ["sudo", "ufw", "deny", "25"]],
       []) := by
  decide

/-- C9: an odd count of numbered lines always makes `get_ports` fail with
the parity error, returning no rules. -/
theorem get_ports_odd_error (lines : List String)
    (h : (lines.filter matchesNumTag).length % 2 = 1) :
    get_ports lines = .error "The amount of ports are not diviced by 2" := by
  have h2 : (lines.filter matchesNumTag).length % 2 ≠ 0 := by omega
  simp [get_ports, h2]

/-- Witness for C9 at a single numbered line. -/
theorem get_ports_odd_error_witness :
    (["[ 1] 22 ALLOW"].filter matchesNumTag).length % 2 = 1 ∧
    get_ports ["[ 1] 22 ALLOW"] = .error "The amount of ports are not diviced by 2" :=
  ⟨by decide, get_ports_odd_error ["[ 1] 22 ALLOW"] (by decide)⟩

/-- C10: when the add-key input strips to the empty string, the add step is
a complete no-op: same state, no command, no popup. -/
theorem addKey_blank_noop (s : SessionState) (raw : String)
    (h : pyStrip raw.data = []) :
    sessionStep s (Key.addKey raw) = (.next s, [], []) := by
  simp [sessionStep, h]

/-- Witness for C10 at a whitespace-only entry. -/
theorem addKey_blank_noop_witness :
    sessionStep ⟨[], 0⟩ (Key.addKey "  ") = (.next ⟨[], 0⟩, [], []) :=
  addKey_blank_noop ⟨[], 0⟩ "  " (by decide)

/-- C1 counterexample: a status text whose numbered lines number an even
count on which the parser nevertheless fails, because the first retained
line does not match the strict entry pattern. -/
theorem get_ports_even_can_fail :
    (["[ 1] !", "[ 2] !"].filter matchesNumTag).length = 2 ∧
    get_ports ["[ 1] !", "[ 2] !"] = .error "Invalid line: [ 1] !" := by
  decide

/-- C1 (amended): for a status text whose numbered lines number an even
count `2 * n` and whose first `n` numbered lines each match the strict
entry pattern, the parser succeeds with exactly `n` rules, a permutation of
the entries parsed from those first `n` lines, sorted ascending by the raw
port token. -/
theorem get_ports_even_wellformed (lines : List String) (n : Nat)
    (hc : (lines.filter matchesNumTag).length = 2 * n)
    (hp : ∀ l ∈ (lines.filter matchesNumTag).take n, (parseEntry l).isSome) :
    ∃ ports : List Port,
      get_ports lines = .ok ports ∧
      ports.length = n ∧
      List.Sorted portLE ports ∧
      ports.Perm (((lines.filter matchesNumTag).take n).filterMap parseEntry) := by
  have hmod : ¬ (lines.filter matchesNumTag).length % 2 ≠ 0 := by omega
  have hdiv : (lines.filter matchesNumTag).length / 2 = n := by omega
  have hok := parseLines_ok _ hp
  refine ⟨List.insertionSort portLE
      (((lines.filter matchesNumTag).take n).filterMap parseEntry), ?_, ?_, ?_, ?_⟩
  · rw [get_ports, if_neg hmod, hdiv, hok]
  · rw [List.length_insertionSort, filterMap_length_all_isSome _ _ hp,
      List.length_take, hc]
    omega
  · exact List.sorted_insertionSort portLE _
  · exact List.perm_insertionSort portLE _

/-- Witness for C1 (amended) on a four-line status text. -/
theorem get_ports_even_wellformed_witness :
    ∃ ports : List Port,
      get_ports ["[ 1] 80/tcp DENY x", "[ 2] 22 ALLOW", "[ 3] a", "[ 4] b"] = .ok ports ∧
      ports.length = 2 ∧
      List.Sorted portLE ports ∧
      ports.Perm (((["[ 1] 80/tcp DENY x", "[ 2] 22 ALLOW", "[ 3] a",
        "[ 4] b"].filter matchesNumTag).take 2).filterMap parseEntry) :=
  get_ports_even_wellformed _ 2 (by decide) (by decide)

/-- C3 counterexample: against a collection holding `22/tcp`, the token
`22/udp` is a different (port, protocol) pair, yet the code rejects it as a
duplicate, leaves the collection unchanged, and issues no command. -/
theorem addTokens_duplicate_ignores_protocol :
    (⟨"22", true, Protocol.tcp⟩ : Port).protocol ≠ Protocol.udp ∧
    addTokens [⟨"22", true, Protocol.tcp⟩] ["22/udp"] =
      ([⟨"22", true, Protocol.tcp⟩], [], ["Port 22 already exists"]) := by
  decide

/-- C3 (amended): a parsed add-ports token is rejected as a duplicate iff
its port number alone already occurs in the collection, regardless of
protocol; on rejection the collection is unchanged, no command is issued
and a duplicate message is shown; otherwise the rule is appended and its
allow or deny command issued. -/
theorem addTokens_parsed_token (col : List Port) (t : String) (allowed : Bool)
    (pid : String) (proto : Protocol)
    (h : parseToken t = some (allowed, pid, proto)) :
    (pid ∈ col.map Port.port_num →
      addTokens col [t] = (col, [], ["Port " ++ pid ++ " already exists"])) ∧
    (pid ∉ col.map Port.port_num →
      addTokens col [t] =
        (col ++ [⟨pid, allowed, proto⟩],
         [if allowed then allowCmd (Port.str_port ⟨pid, allowed, proto⟩)
          else denyCmd (Port.str_port ⟨pid, allowed, proto⟩)],
         [])) := by
  constructor <;> intro hmem <;>
    cases allowed <;>
      simp [addTokens, h, hmem, Port.allow, Port.deny]

/-- Witness for C3 (amended): duplicate port number under another protocol
is rejected; a fresh port number is appended with its command. -/
theorem addTokens_parsed_token_witness :
    addTokens [⟨"80", true, Protocol.any⟩] ["80/tcp"] =
      ([⟨"80", true, Protocol.any⟩], [], ["Port 80 already exists"]) ∧
    addTokens [⟨"80", true, Protocol.any⟩] ["!25"] =
      ([⟨"80", true, Protocol.any⟩, ⟨"25", false, Protocol.any⟩],
       [denyCmd "25"], []) :=
  ⟨(addTokens_parsed_token [⟨"80", true, Protocol.any⟩] "80/tcp" true "80"
      Protocol.tcp (by decide)).1 (by decide),
   ((addTokens_parsed_token [⟨"80", true, Protocol.any⟩] "!25" false "25"
      Protocol.any (by decide)).2 (by decide)).trans (by decide)⟩

/-- C8 counterexample: the token `22/foo` does not match the whole-token
grammar `[!]<port_id>[/<tcp|udp>]`, yet the code accepts it (the pattern is
a prefix match), constructs the rule `{22, ANY, allowed}` and issues an
allow command. -/
theorem addTokens_accepts_bad_suffix :
    specTokenGrammar "22/foo" = false ∧
    addTokens [] ["22/foo"] =
      ([⟨"22", true, Protocol.any⟩], [allowCmd "22"], []) := by
  decide

/-- C8 (amended): a token is rejected iff it has no prefix matching
`(!)?(\w+)(?:/(tcp|udp))?`; on rejection no rule is constructed and no
command is issued for it, a popup naming the bad token is shown, and the
remaining tokens are still processed. -/
theorem addTokens_unmatched_token (col : List Port) (t : String)
    (ts : List String) (h : parseToken t = none) :
    addTokens col (t :: ts) =
      ((addTokens col ts).1, (addTokens col ts).2.1,
       ("Invalid port: " ++ t) :: (addTokens col ts).2.2) := by
  simp [addTokens, h]

/-- Witness for C8 (amended) at the bare token `!`. -/
theorem addTokens_unmatched_token_witness :
    addTokens [] ["!", "25"] =
      ([⟨"25", true, Protocol.any⟩], [allowCmd "25"], ["Invalid port: !"]) :=
  (addTokens_unmatched_token [] "!" ["25"] (by decide)).trans (by decide)

/-- C5 (code bug): the empty collection with cursor 0 is reachable (an
empty status listing parses to no rules), and pressing the delete key there
raises an uncaught `IndexError`, terminating the session other than via the
quit key with no popup. -/
theorem delete_on_empty_crashes :
    Reachable ⟨[], 0⟩ ∧
    sessionStep ⟨[], 0⟩ Key.d = (.crash "IndexError", [], []) :=
  ⟨Reachable.init [] [] (by decide), by decide⟩

/-- C6 (code bug): a session state with a non-empty collection and cursor
`-1` is reachable — add a rule, delete it (the clamp sets the cursor to
`len - 1 = -1`), then add another rule — violating the invariant
`0 ≤ cursor < length` for non-empty collections. -/
theorem reachable_invalid_cursor :
    Reachable ⟨[⟨"77", true, Protocol.any⟩], -1⟩ ∧
    (⟨[⟨"77", true, Protocol.any⟩], -1⟩ : SessionState).port_lst ≠ [] ∧
    (⟨[⟨"77", true, Protocol.any⟩], -1⟩ : SessionState).current_index < 0 := by
  refine ⟨?_, by decide, by decide⟩
  have h0 : Reachable ⟨[], 0⟩ := Reachable.init [] [] (by decide)
  have h1 : Reachable ⟨[⟨"22", true, Protocol.any⟩], 0⟩ :=
    Reachable.step _ _ (Key.addKey "22") h0 (by decide)
  have h2 : Reachable ⟨[], -1⟩ :=
    Reachable.step _ _ Key.d h1 (by decide)
  exact Reachable.step _ _ (Key.addKey "77") h2 (by decide)

end UfwTui
